import Mathlib

/-!
Shallow embedding of the progress-tracking core of the research-paper-mentor
backend: the SM-2 spaced-repetition service (`app/services/spaced_repetition.py`),
the mastery aggregation and retention/streak routes (`app/api/routes/progress.py`),
and the pydantic data models they operate on (`app/models/concept.py`,
`app/models/progress.py`, `app/models/quiz.py`).

Python floats are modelled as rationals (`ℚ`), Python `int` as `ℤ` or `ℕ`,
dicts as association lists (`List (key × value)`), and UTC datetimes as
integer timestamps (seconds; calendar dates are integer day numbers).
Fields of the pydantic models that the modelled code paths never read or
write (display strings, creation timestamps, ...) are omitted.
-/

namespace PaperMentor

/-- Python `int()` applied to a float/rational: truncation toward zero. -/
def pythonInt (q : ℚ) : ℤ :=
  if q < 0 then ⌈q⌉ else ⌊q⌋

/-- `ConceptUnderstanding` record (`app/models/concept.py`).
`last_reviewed` / `next_review` are modelled as optional day-granularity
timestamps (`ℤ`), matching the ISO strings the code round-trips through
`datetime.fromisoformat`. -/
structure ConceptUnderstanding where
  user_id : String
  concept_id : String
  paper_id : String
  is_understood : Bool
  confidence_level : ℚ
  times_reviewed : ℕ
  times_quizzed : ℕ
  correct_answers : ℕ
  last_reviewed : Option ℤ
  next_review : Option ℤ
  ease_factor : ℚ
  interval_days : ℤ
deriving DecidableEq, Repr

/-- A fresh `ConceptUnderstanding` with the model's field defaults
(`is_understood=False`, `confidence_level=0.0`, counters 0,
`ease_factor=2.5`, `interval_days=1`). -/
def initialUnderstanding (uid cid pid : String) : ConceptUnderstanding :=
  { user_id := uid, concept_id := cid, paper_id := pid,
    is_understood := false, confidence_level := 0,
    times_reviewed := 0, times_quizzed := 0, correct_answers := 0,
    last_reviewed := none, next_review := none,
    ease_factor := 2.5, interval_days := 1 }

/-- The fields of `QuizResult` (`app/models/quiz.py`) read by the modelled
code: `concept_scores` (a dict concept id → score) and `score_percentage`. -/
structure QuizResult where
  concept_scores : List (String × ℚ)
  score_percentage : ℚ
deriving DecidableEq, Repr

/-- SM-2 algorithm constants from `SpacedRepetitionService.__init__`. -/
def MIN_EASE_FACTOR : ℚ := 1.3

/-- SM-2 algorithm constants from `SpacedRepetitionService.__init__`. -/
def INITIAL_EASE_FACTOR : ℚ := 2.5

/-- `SpacedRepetitionService._score_to_quality`: convert a 0-1 score to an
SM-2 quality grade 0-5. -/
def score_to_quality (score : ℚ) : ℤ :=
  if score ≥ 0.95 then 5
  else if score ≥ 0.8 then 4
  else if score ≥ 0.6 then 3
  else if score ≥ 0.4 then 2
  else if score ≥ 0.2 then 1
  else 0

/-- `SpacedRepetitionService._sm2_algorithm`. `now` is the timestamp the code
obtains from `datetime.utcnow()`, in days so that `now + interval_days`
renders `now + timedelta(days=interval_days)`. -/
def sm2_algorithm (u : ConceptUnderstanding) (quality : ℤ) (now : ℤ) :
    ConceptUnderstanding :=
  let u1 :=
    if quality < 3 then
      { u with interval_days := 1,
               ease_factor := max (INITIAL_EASE_FACTOR - 0.2) MIN_EASE_FACTOR }
    else
      let ef := max
        (u.ease_factor + (0.1 - (5 - (quality : ℚ)) * (0.08 + (5 - (quality : ℚ)) * 0.02)))
        MIN_EASE_FACTOR
      let iv := if u.interval_days = 1 then 6
                else pythonInt ((u.interval_days : ℚ) * ef)
      { u with ease_factor := ef, interval_days := iv }
  { u1 with last_reviewed := some now,
            next_review := some (now + u1.interval_days),
            times_reviewed := u1.times_reviewed + 1 }

/-- `SpacedRepetitionService.update_concept_understanding`: update a concept
understanding from the quiz result's score for `concept_id` (no-op when that
concept has no score in `quiz_result.concept_scores`). -/
def update_concept_understanding (u : ConceptUnderstanding) (quiz_result : QuizResult)
    (concept_id : String) (now : ℤ) : ConceptUnderstanding :=
  match quiz_result.concept_scores.lookup concept_id with
  | none => u
  | some score =>
    let u1 := { u with times_quizzed := u.times_quizzed + 1 }
    let u2 := if score ≥ 0.5 then
                { u1 with correct_answers := u1.correct_answers + 1 }
              else u1
    let quality := score_to_quality score
    let u3 := sm2_algorithm u2 quality now
    let conf := min ((u3.correct_answers : ℚ) / (u3.times_quizzed : ℚ)) 1
    let u4 := { u3 with confidence_level := conf }
    if u4.confidence_level ≥ 0.8 ∧ u4.times_quizzed ≥ 2 then
      { u4 with is_understood := true }
    else u4

/-- `SpacedRepetitionService.get_concepts_due_for_review`: concept ids that
are due (never reviewed, when `include_new`, or with `next_review ≤ now`). -/
def get_concepts_due_for_review (understandings : List ConceptUnderstanding)
    (include_new : Bool) (now : ℤ) : List String :=
  understandings.foldl
    (fun due u =>
      match u.last_reviewed with
      | none => if include_new then due ++ [u.concept_id] else due
      | some _ =>
        match u.next_review with
        | some next_review => if next_review ≤ now then due ++ [u.concept_id] else due
        | none => due)
    []

/-- The three classification counts shared by both retention implementations
(`concepts_mastered`, `concepts_struggling`, `concepts_in_progress`; the last
is a Python subtraction and may in principle go negative, hence `ℤ`). -/
structure RetentionCounts where
  mastered : ℕ
  struggling : ℕ
  in_progress : ℤ
deriving DecidableEq, Repr

/-- The classification counts computed by
`SpacedRepetitionService.calculate_retention_rate`: mastered counts
`is_understood` records, struggling counts `times_quizzed >= 3` with
`confidence_level < 0.5`, in-progress is the remainder. -/
def calculate_retention_rate (understandings : List ConceptUnderstanding) :
    RetentionCounts :=
  if understandings.isEmpty then
    { mastered := 0, struggling := 0, in_progress := 0 }
  else
    let total := understandings.length
    let mastered := understandings.countP (fun u => u.is_understood)
    let struggling := understandings.countP
      (fun u => decide (u.times_quizzed ≥ 3 ∧ u.confidence_level < 0.5))
    { mastered := mastered, struggling := struggling,
      in_progress := (total : ℤ) - mastered - struggling }

/-- The fields of `Concept` (`app/models/concept.py`) that the modelled
aggregation reads (`concept.id`, `concept.name`). -/
structure Concept where
  id : String
  name : String
deriving DecidableEq, Repr

/-- `ConceptMastery` (`app/models/progress.py`); the datetime fields the
modelled code never reads are omitted. -/
structure ConceptMastery where
  concept_id : String
  concept_name : String
  paper_id : String
  mastery_level : ℚ
  times_reviewed : ℕ
  times_quizzed : ℕ
deriving DecidableEq, Repr

/-- The fields of `UserProgress` (`app/models/progress.py`) that
`_update_progress` touches. -/
structure UserProgress where
  user_id : String
  paper_id : String
  completion_percentage : ℤ
  concepts_mastery : List ConceptMastery
  quiz_attempts : ℕ
  average_quiz_score : ℚ
deriving DecidableEq, Repr

/-- One step of the `concept_stats` accumulation in `_update_progress`:
record score `s` for concept `cid` (append to the entry's `scores` list and
bump its `count` when the key is present, insert a fresh entry otherwise). -/
def addScore : List (String × (List ℚ × ℕ)) → String → ℚ →
    List (String × (List ℚ × ℕ))
  | [], cid, s => [(cid, ([s], 1))]
  | (k, (ss, n)) :: rest, cid, s =>
    if k = cid then (k, (ss ++ [s], n + 1)) :: rest
    else (k, (ss, n)) :: addScore rest cid s

/-- The `concept_stats` dict of `_update_progress`, accumulated over every
`(concept_id, score)` item of every quiz result's `concept_scores`. -/
def buildConceptStats (quiz_results : List QuizResult) :
    List (String × (List ℚ × ℕ)) :=
  quiz_results.foldl
    (fun stats qr => qr.concept_scores.foldl (fun st p => addScore st p.1 p.2) stats)
    []

/-- `avg_mastery` in `_update_progress`:
`sum(c.mastery_level for c in progress.concepts_mastery) /
len(progress.concepts_mastery)`. -/
def masteryMean (ms : List ConceptMastery) : ℚ :=
  (ms.map (fun c => c.mastery_level)).sum / (ms.length : ℚ)

/-- `_update_progress` (`app/api/routes/progress.py`): recompute quiz
statistics, the per-concept mastery list, and the completion percentage from
the stored quiz results. `graph` is the concept list of
`concept_graphs_db[paper_id]` when the paper has a concept graph, `none`
otherwise. -/
def update_progress (p : UserProgress) (paper_id : String)
    (quiz_results : List QuizResult) (graph : Option (List Concept)) :
    UserProgress :=
  if quiz_results.isEmpty then
    match graph with
    | some cs =>
      { p with concepts_mastery := cs.map (fun c =>
          { concept_id := c.id, concept_name := c.name, paper_id := paper_id,
            mastery_level := 0, times_quizzed := 0, times_reviewed := 0 }) }
    | none => p
  else
    let total_score := (quiz_results.map (fun r => r.score_percentage)).sum
    let p1 := { p with quiz_attempts := quiz_results.length,
                       average_quiz_score := total_score / (quiz_results.length : ℚ) }
    let p2 :=
      match graph with
      | some cs =>
        let stats := buildConceptStats quiz_results
        { p1 with concepts_mastery := cs.map (fun c =>
            match stats.lookup c.id with
            | some (ss, n) =>
              { concept_id := c.id, concept_name := c.name, paper_id := paper_id,
                mastery_level := ss.sum / (ss.length : ℚ),
                times_quizzed := n, times_reviewed := n }
            | none =>
              { concept_id := c.id, concept_name := c.name, paper_id := paper_id,
                mastery_level := 0, times_quizzed := 0, times_reviewed := 0 }) }
      | none => p1
    let avg_mastery := masteryMean p2.concepts_mastery
    if p2.concepts_mastery.isEmpty then p2
    else { p2 with completion_percentage := pythonInt (avg_mastery * 100) }

/-- The score observations for concept `cid` contributed by one list of
`(concept_id, score)` items, in order. -/
def obsPairs (ps : List (String × ℚ)) (cid : String) : List ℚ :=
  (ps.filter (fun q => q.1 = cid)).map (fun q => q.2)

/-- All score observations for concept `cid` across a quiz-result history, in
submission order: the list the `concept_stats` entry for `cid` accumulates. -/
def observations (quiz_results : List QuizResult) (cid : String) : List ℚ :=
  obsPairs ((quiz_results.map (fun qr => qr.concept_scores)).flatten) cid

/-- The mean the aggregation assigns to a concept: mean of its observations,
0.0 when it was never observed (division by zero yields 0 in `ℚ`, matching
the `else` branch of the source). -/
def scoresMean (l : List ℚ) : ℚ := l.sum / (l.length : ℚ)

/-- The classification counts computed inline by the
`/progress/{user_id}/{paper_id}/retention` route (`get_retention_stats`):
`ms` is the freshly updated `progress.concepts_mastery` and `total` the
number of concepts in the paper's concept graph. -/
def get_retention_stats (ms : List ConceptMastery) (total : ℕ) : RetentionCounts :=
  let mastered := ms.countP (fun cm => decide (cm.mastery_level ≥ 0.8))
  let struggling := ms.countP
    (fun cm => decide (cm.mastery_level < 0.5 ∧ cm.times_quizzed > 0))
  { mastered := mastered, struggling := struggling,
    in_progress := (total : ℤ) - mastered - struggling }

/-- The three classes of the spec's threshold policy (§4.1). -/
inductive MasteryClass where
  | mastered
  | struggling
  | inProgress
deriving DecidableEq, Repr

/-- Modelled from the spec (§4.1 threshold policy, for the refinement claim):
`mastery ≥0.8 ⇒ mastered; mastery <0.5 AND times_quizzed>0 ⇒ struggling;
otherwise in progress`. -/
def specClassify (mastery : ℚ) (times_quizzed : ℕ) : MasteryClass :=
  if mastery ≥ 0.8 then MasteryClass.mastered
  else if mastery < 0.5 ∧ times_quizzed > 0 then MasteryClass.struggling
  else MasteryClass.inProgress

/-- Modelled from the spec: the counts of the §4.1 three-way classification
over a record collection. -/
def specPolicyCounts (ms : List ConceptMastery) : RetentionCounts :=
  { mastered := ms.countP
      (fun cm => specClassify cm.mastery_level cm.times_quizzed = MasteryClass.mastered)
    struggling := ms.countP
      (fun cm => specClassify cm.mastery_level cm.times_quizzed = MasteryClass.struggling)
    in_progress := (ms.countP
      (fun cm => specClassify cm.mastery_level cm.times_quizzed = MasteryClass.inProgress) : ℤ) }

/-- Modelled from the spec: `round` (round half away from zero; the spec's
`round(mean * 100)` is only ever applied to a nonnegative mean, where every
round-to-nearest convention agrees except at exact halves). -/
def specRound (q : ℚ) : ℤ := ⌊q + 1/2⌋

/-- Seconds per day: `datetime.date()` truncates a UTC timestamp to its
calendar day. -/
def SECONDS_PER_DAY : ℤ := 86400

/-- `session.start_time.date()`: the calendar day of a timestamp. -/
def sessionDate (start_time : ℤ) : ℤ := Int.fdiv start_time SECONDS_PER_DAY

/-- Descending insertion step for `sorted(..., reverse=True)`. Tie order
among equal start times is irrelevant downstream: the walk only reads the
(equal) dates. -/
def insertDescending (x : ℤ) : List ℤ → List ℤ
  | [] => [x]
  | y :: ys => if y < x then x :: y :: ys else y :: insertDescending x ys

/-- `sorted(sessions, key=lambda s: s.start_time, reverse=True)`. -/
def sortDescending (l : List ℤ) : List ℤ := l.foldr insertDescending []

/-- The session walk of `_calculate_study_streak`: `d` ranges over session
dates in descending start-time order; the loop body mirrors the three-way
branch of the source (`== current_date`, `== current_date -
timedelta(days=streak + 1)`, else break). -/
def streakWalk (today : ℤ) : List ℤ → ℕ → ℕ
  | [], streak => streak
  | d :: rest, streak =>
    if d = today then
      streakWalk today rest (if streak = 0 then 1 else streak)
    else if d = today - ((streak : ℤ) + 1) then
      streakWalk today rest (streak + 1)
    else streak

/-- `_calculate_study_streak` (`app/api/routes/progress.py`): current study
streak in days, from the user's session start times, evaluated at UTC day
`today`. -/
def calculate_study_streak (session_start_times : List ℤ) (today : ℤ) : ℕ :=
  if session_start_times.isEmpty then 0
  else streakWalk today ((sortDescending session_start_times).map sessionDate) 0

/-- `ConceptGraph` (`app/models/concept.py`), restricted to the fields the
modelled routes read. -/
structure ConceptGraph where
  paper_id : String
  concepts : List Concept
deriving DecidableEq, Repr

/-- The module-level in-memory stores the progress routes can read
(`concept_graphs_db`, `quiz_results_db`, `study_sessions_db` as start
times, `user_progress_db`). -/
structure AppState where
  concept_graphs_db : List (String × ConceptGraph)
  quiz_results_db : List (String × List QuizResult)
  study_sessions_db : List (String × List ℤ)
  user_progress_db : List (String × UserProgress)
deriving DecidableEq, Repr

namespace Routes

/-- Route handler `GET /progress/{user_id}/{paper_id}/due-for-review`
(`get_concepts_due_for_review` in `app/api/routes/progress.py`): 403 when
`current_user.id != user_id`; otherwise the literal `{"count": 0,
"concepts": []}` in both the missing-graph and the graph-present branch. -/
def get_concepts_due_for_review (st : AppState)
    (user_id paper_id current_user_id : String) : Except ℕ (ℕ × List String) :=
  if current_user_id ≠ user_id then Except.error 403
  else
    match st.concept_graphs_db.lookup paper_id with
    | none => Except.ok (0, [])
    | some _g => Except.ok (0, [])

end Routes

/-! ## Helper lemmas -/

theorem pythonInt_eq_floor {q : ℚ} (h : 0 ≤ q) : pythonInt q = ⌊q⌋ := by
  simp [pythonInt, not_lt.mpr h]

theorem sm2_is_understood (u : ConceptUnderstanding) (q now : ℤ) :
    (sm2_algorithm u q now).is_understood = u.is_understood := by
  simp only [sm2_algorithm]
  split <;> rfl

theorem sm2_times_quizzed (u : ConceptUnderstanding) (q now : ℤ) :
    (sm2_algorithm u q now).times_quizzed = u.times_quizzed := by
  simp only [sm2_algorithm]
  split <;> rfl

theorem sm2_correct_answers (u : ConceptUnderstanding) (q now : ℤ) :
    (sm2_algorithm u q now).correct_answers = u.correct_answers := by
  simp only [sm2_algorithm]
  split <;> rfl

/-! ## Claims -/

/-- C6: any update with quality < 3 resets `interval_days` to 1 regardless of
the prior interval, and sets `ease_factor` to the fixed value
`max(2.5 - 0.2, 1.3) = max(2.3, 1.3) = 2.3`, independent of the prior ease
factor. -/
theorem C6_failure_reset (u : ConceptUnderstanding) (quality now : ℤ)
    (h : quality < 3) :
    (sm2_algorithm u quality now).interval_days = 1 ∧
    (sm2_algorithm u quality now).ease_factor = max 2.3 1.3 ∧
    (sm2_algorithm u quality now).ease_factor = 2.3 := by
  refine ⟨?_, ?_, ?_⟩ <;>
    simp only [sm2_algorithm, if_pos h] <;>
    norm_num [INITIAL_EASE_FACTOR, MIN_EASE_FACTOR]

/-- Witness for C6 at quality 0 on a fresh understanding record. -/
theorem C6_witness :
    (0 : ℤ) < 3 ∧
    (sm2_algorithm (initialUnderstanding ("u") ("c") ("p")) 0 0).interval_days = 1 :=
  ⟨by norm_num,
   (C6_failure_reset (initialUnderstanding ("u") ("c") ("p")) 0 0 (by norm_num)).1⟩

/-- C8: when `concept_id` has no score in `quiz_result.concept_scores`,
`update_concept_understanding` returns its input record completely
unchanged (and raises no error). -/
theorem C8_missing_score_noop (u : ConceptUnderstanding) (quiz_result : QuizResult)
    (concept_id : String) (now : ℤ)
    (h : quiz_result.concept_scores.lookup concept_id = none) :
    update_concept_understanding u quiz_result concept_id now = u := by
  simp [update_concept_understanding, h]

/-- Witness for C8: a quiz result scoring only a different concept. -/
theorem C8_witness :
    (QuizResult.mk [(("other" : String), (1 : ℚ))] 100).concept_scores.lookup ("c") = none ∧
    update_concept_understanding (initialUnderstanding ("u") ("c") ("p"))
        (QuizResult.mk [(("other" : String), (1 : ℚ))] 100) ("c") 0 =
      initialUnderstanding ("u") ("c") ("p") :=
  ⟨by simp,
   C8_missing_score_noop (initialUnderstanding ("u") ("c") ("p"))
     (QuizResult.mk [(("other" : String), (1 : ℚ))] 100) ("c") 0 (by simp)⟩

/-- C10: the due-for-review HTTP endpoint is a constant stub: for every
authorized request (`current_user.id == user_id`) it answers
`{"count": 0, "concepts": []}`, whatever the application state — quiz
history, stored progress, study sessions, and concept graphs (present or
absent) are all ignored, so the `SpacedRepetitionService` due-computation
(`get_concepts_due_for_review` / `prioritize_concepts_for_review`) never
influences the response. -/
theorem C10_due_for_review_stub (st : AppState) (user_id paper_id : String) :
    Routes.get_concepts_due_for_review st user_id paper_id user_id =
      Except.ok (0, []) := by
  simp only [Routes.get_concepts_due_for_review, ne_eq, not_true_eq_false, if_false]
  cases st.concept_graphs_db.lookup paper_id <;> simp

/-- C2 (code bug): the streak walk compares each later session date against
`today - (streak + 1)` instead of `today - streak`, so with day-granularity
timestamps (day `n` = `86400 * n`) and `today = 10`: sessions on today and
yesterday give streak 1 (the spec requires 2); a session only yesterday
gives streak 1 (the spec requires 0); a session only 2 days ago gives 0; and
sessions on today and 2-days-ago — a gapped history — give streak 2. -/
theorem C2_streak_off_by_one :
    calculate_study_streak [864000, 777600] 10 = 1 ∧
    calculate_study_streak [777600] 10 = 1 ∧
    calculate_study_streak [691200] 10 = 0 ∧
    calculate_study_streak [864000, 691200] 10 = 2 := by
  decide

/-- C5: on a successful recall (quality ≥ 3) the new ease factor is
`max(old + (0.1 - (5-q)(0.08 + (5-q)·0.02)), 1.3)`, computed before the
interval update; the new interval is 6 when the previous interval was 1 and
`floor(previous interval × new ease)` otherwise; and the concrete SM-2
progression from `(interval_days=1, ease_factor=2.5)` under two quality-5
updates is `interval 6 (ease 2.6)`, then `interval ⌊6 × 2.7⌋ = 16` with the
twice-increased ease factor 2.7. -/
theorem C5_success_progression (u : ConceptUnderstanding) (quality now now2 : ℤ)
    (h3 : 3 ≤ quality) (hiv : 1 ≤ u.interval_days) :
    ((sm2_algorithm u quality now).ease_factor =
      max (u.ease_factor +
        (0.1 - (5 - (quality : ℚ)) * (0.08 + (5 - (quality : ℚ)) * 0.02))) 1.3) ∧
    ((sm2_algorithm u quality now).interval_days =
      if u.interval_days = 1 then 6
      else ⌊(u.interval_days : ℚ) * (sm2_algorithm u quality now).ease_factor⌋) ∧
    (sm2_algorithm (initialUnderstanding ("u") ("c") ("p")) 5 now).interval_days = 6 ∧
    (sm2_algorithm (initialUnderstanding ("u") ("c") ("p")) 5 now).ease_factor = 2.6 ∧
    (sm2_algorithm (sm2_algorithm (initialUnderstanding ("u") ("c") ("p")) 5 now)
        5 now2).ease_factor = 2.7 ∧
    (sm2_algorithm (sm2_algorithm (initialUnderstanding ("u") ("c") ("p")) 5 now)
        5 now2).interval_days = ⌊(6 : ℚ) * 2.7⌋ ∧
    ⌊(6 : ℚ) * 2.7⌋ = (16 : ℤ) := by
  have hq : ¬ quality < 3 := not_lt.mpr h3
  have hc1 : (sm2_algorithm u quality now).ease_factor =
      max (u.ease_factor +
        (0.1 - (5 - (quality : ℚ)) * (0.08 + (5 - (quality : ℚ)) * 0.02))) 1.3 := by
    simp [sm2_algorithm, hq, MIN_EASE_FACTOR]
  refine ⟨hc1, ?_, ?_, ?_, ?_, ?_, by norm_num⟩
  · by_cases hI : u.interval_days = 1
    · simp [sm2_algorithm, hq, hI]
    · have hcast : (1 : ℚ) ≤ (u.interval_days : ℚ) := by exact_mod_cast hiv
      have hnn : 0 ≤ (u.interval_days : ℚ) *
          max (u.ease_factor +
            (0.1 - (5 - (quality : ℚ)) * (0.08 + (5 - (quality : ℚ)) * 0.02))) 1.3 := by
        apply mul_nonneg (le_trans zero_le_one hcast)
        exact le_trans (by norm_num) (le_max_right _ _)
      rw [hc1, if_neg hI]
      simp only [sm2_algorithm, if_neg hq, if_neg hI]
      exact pythonInt_eq_floor hnn
  · norm_num [sm2_algorithm, initialUnderstanding, MIN_EASE_FACTOR]
  · norm_num [sm2_algorithm, initialUnderstanding, MIN_EASE_FACTOR]
  · norm_num [sm2_algorithm, initialUnderstanding, MIN_EASE_FACTOR]
  · norm_num [sm2_algorithm, initialUnderstanding, MIN_EASE_FACTOR, pythonInt]

/-- Witness for C5 at quality 4 on a fresh understanding record. -/
theorem C5_witness :
    (3 : ℤ) ≤ 4 ∧ 1 ≤ (initialUnderstanding ("u") ("c") ("p")).interval_days ∧
    (sm2_algorithm (initialUnderstanding ("u") ("c") ("p")) 4 0).ease_factor =
      max ((initialUnderstanding ("u") ("c") ("p")).ease_factor +
        (0.1 - (5 - (4 : ℚ)) * (0.08 + (5 - (4 : ℚ)) * 0.02))) 1.3 :=
  ⟨by norm_num, by norm_num [initialUnderstanding],
   (C5_success_progression (initialUnderstanding ("u") ("c") ("p")) 4 0 0
     (by norm_num) (by norm_num [initialUnderstanding])).1⟩

/-- The SM-2 scheduler state of the updated record is what `_sm2_algorithm`
produces on the counter-updated input (the later confidence/flag writes do
not touch `ease_factor`/`interval_days`). -/
theorem update_sm2_fields (u : ConceptUnderstanding) (qr : QuizResult)
    (cid : String) (now : ℤ) (score : ℚ)
    (h : qr.concept_scores.lookup cid = some score) :
    (update_concept_understanding u qr cid now).ease_factor =
      (sm2_algorithm
        { u with times_quizzed := u.times_quizzed + 1,
                 correct_answers :=
                   if score ≥ 0.5 then u.correct_answers + 1 else u.correct_answers }
        (score_to_quality score) now).ease_factor ∧
    (update_concept_understanding u qr cid now).interval_days =
      (sm2_algorithm
        { u with times_quizzed := u.times_quizzed + 1,
                 correct_answers :=
                   if score ≥ 0.5 then u.correct_answers + 1 else u.correct_answers }
        (score_to_quality score) now).interval_days := by
  by_cases h5 : score ≥ (0.5 : ℚ) <;>
    simp [update_concept_understanding, h, h5,
      apply_ite ConceptUnderstanding.ease_factor,
      apply_ite ConceptUnderstanding.interval_days]

/-- `_sm2_algorithm` preserves `ease_factor ≥ 1.3` and `interval_days ≥ 1`
for every quality grade. -/
theorem sm2_invariant (u : ConceptUnderstanding) (q now : ℤ)
    (hi : 1 ≤ u.interval_days) :
    (1.3 : ℚ) ≤ (sm2_algorithm u q now).ease_factor ∧
    1 ≤ (sm2_algorithm u q now).interval_days := by
  by_cases hq : q < 3
  · constructor <;> simp [sm2_algorithm, hq, INITIAL_EASE_FACTOR, MIN_EASE_FACTOR]
  · constructor
    · simp only [sm2_algorithm, if_neg hq, MIN_EASE_FACTOR]
      exact le_max_right _ _
    · by_cases hI : u.interval_days = 1
      · simp [sm2_algorithm, hq, hI]
      · have h2 : (2 : ℤ) ≤ u.interval_days := by omega
        have h2q : (2 : ℚ) ≤ (u.interval_days : ℚ) := by exact_mod_cast h2
        have hef : (1.3 : ℚ) ≤ max
            (u.ease_factor + (0.1 - (5 - (q : ℚ)) * (0.08 + (5 - (q : ℚ)) * 0.02)))
            1.3 := le_max_right _ _
        have hprod : (1 : ℚ) ≤ (u.interval_days : ℚ) * max
            (u.ease_factor + (0.1 - (5 - (q : ℚ)) * (0.08 + (5 - (q : ℚ)) * 0.02)))
            1.3 := by
          calc (1 : ℚ) ≤ 2 * 1.3 := by norm_num
          _ ≤ (u.interval_days : ℚ) * max
              (u.ease_factor + (0.1 - (5 - (q : ℚ)) * (0.08 + (5 - (q : ℚ)) * 0.02)))
              1.3 := by
            apply mul_le_mul h2q hef (by norm_num) (by linarith)
        simp only [sm2_algorithm, if_neg hq, if_neg hI, MIN_EASE_FACTOR]
        rw [pythonInt_eq_floor (le_trans zero_le_one hprod)]
        exact Int.le_floor.mpr (by exact_mod_cast hprod)

/-- C9: `ease_factor ≥ 1.3 ∧ interval_days ≥ 1` is an invariant of the
scheduler: any `update_concept_understanding` call (hence any quality grade
0–5 the score maps to) preserves it. -/
theorem C9_scheduler_invariant (u : ConceptUnderstanding) (quiz_result : QuizResult)
    (concept_id : String) (now : ℤ)
    (he : (1.3 : ℚ) ≤ u.ease_factor) (hi : 1 ≤ u.interval_days) :
    (1.3 : ℚ) ≤ (update_concept_understanding u quiz_result concept_id now).ease_factor ∧
    1 ≤ (update_concept_understanding u quiz_result concept_id now).interval_days := by
  cases hl : quiz_result.concept_scores.lookup concept_id with
  | none =>
    have hnoop : update_concept_understanding u quiz_result concept_id now = u := by
      simp [update_concept_understanding, hl]
    rw [hnoop]
    exact ⟨he, hi⟩
  | some score =>
    obtain ⟨hef, hiv⟩ := update_sm2_fields u quiz_result concept_id now score hl
    rw [hef, hiv]
    exact sm2_invariant _ _ _ hi

/-- Witness for C9 on a fresh understanding record and a quiz scoring the
concept 1.0. -/
theorem C9_witness :
    (1.3 : ℚ) ≤ (initialUnderstanding ("u") ("c") ("p")).ease_factor ∧
    1 ≤ (initialUnderstanding ("u") ("c") ("p")).interval_days ∧
    (1.3 : ℚ) ≤ (update_concept_understanding (initialUnderstanding ("u") ("c") ("p"))
      (QuizResult.mk [(("c" : String), (1 : ℚ))] 100) ("c") 0).ease_factor :=
  ⟨by norm_num [initialUnderstanding], by norm_num [initialUnderstanding],
   (C9_scheduler_invariant (initialUnderstanding ("u") ("c") ("p"))
     (QuizResult.mk [(("c" : String), (1 : ℚ))] 100) ("c") 0
     (by norm_num [initialUnderstanding]) (by norm_num [initialUnderstanding])).1⟩

/-- A record the scheduler has already marked understood (confidence 1.0
after two correct quizzes). -/
def understoodRecord : ConceptUnderstanding :=
  { user_id := "u", concept_id := "c", paper_id := "p", is_understood := true,
    confidence_level := 1, times_reviewed := 2, times_quizzed := 2,
    correct_answers := 2, last_reviewed := some 0, next_review := some 6,
    ease_factor := 2.6, interval_days := 6 }

/-- A graded quiz in which concept `"c"` scored 0.0. -/
def zeroScoreQuiz : QuizResult :=
  { concept_scores := [(("c" : String), (0 : ℚ))], score_percentage := 0 }

/-- C1 counterexample: an update that drops `confidence_level` to 2/3 < 0.8
on a previously understood record leaves `is_understood = true`, so
`is_understood` does not equal `(confidence_level ≥ 0.8 ∧ times_quizzed ≥
2)` after the update. -/
theorem C1_counterexample :
    (update_concept_understanding understoodRecord zeroScoreQuiz ("c") 10).is_understood
      = true ∧
    (update_concept_understanding understoodRecord zeroScoreQuiz ("c") 10).confidence_level
      < 0.8 ∧
    (update_concept_understanding understoodRecord zeroScoreQuiz ("c") 10).times_quizzed
      ≥ 2 := by
  norm_num [update_concept_understanding, understoodRecord, zeroScoreQuiz,
    score_to_quality, sm2_algorithm, INITIAL_EASE_FACTOR, MIN_EASE_FACTOR,
    pythonInt, min_def]

/-- C1 (amended): whenever the concept has a score in
`quiz_result.concept_scores`, the updated record satisfies `is_understood =
(old is_understood) OR (new confidence_level ≥ 0.8 AND new times_quizzed ≥
2)` — the flag is set when the threshold condition holds but is a sticky
(one-way) flag, never reset to false by a later poor update. -/
theorem C1_is_understood_latch (u : ConceptUnderstanding) (quiz_result : QuizResult)
    (concept_id : String) (now : ℤ)
    (h : (quiz_result.concept_scores.lookup concept_id).isSome) :
    ((update_concept_understanding u quiz_result concept_id now).is_understood = true ↔
      (u.is_understood = true ∨
        ((update_concept_understanding u quiz_result concept_id now).confidence_level
            ≥ 0.8 ∧
         (update_concept_understanding u quiz_result concept_id now).times_quizzed
            ≥ 2))) := by
  obtain ⟨score, hs⟩ := Option.isSome_iff_exists.mp h
  simp only [update_concept_understanding, hs,
    apply_ite ConceptUnderstanding.is_understood,
    apply_ite ConceptUnderstanding.confidence_level,
    apply_ite ConceptUnderstanding.times_quizzed,
    sm2_is_understood, sm2_times_quizzed, ite_self]
  split <;> rename_i hC <;> simp [hC] <;> try tauto

/-- Witness for C1 on the counterexample record. -/
theorem C1_witness :
    (zeroScoreQuiz.concept_scores.lookup ("c")).isSome = true ∧
    ((update_concept_understanding understoodRecord zeroScoreQuiz ("c") 10).is_understood
        = true ↔
      (understoodRecord.is_understood = true ∨
        ((update_concept_understanding understoodRecord zeroScoreQuiz ("c")
            10).confidence_level ≥ 0.8 ∧
         (update_concept_understanding understoodRecord zeroScoreQuiz ("c")
            10).times_quizzed ≥ 2))) :=
  ⟨by simp [zeroScoreQuiz],
   C1_is_understood_latch understoodRecord zeroScoreQuiz ("c") 10
     (by simp [zeroScoreQuiz])⟩

theorem specClassify_eq_mastered (lvl : ℚ) (tq : ℕ) :
    specClassify lvl tq = MasteryClass.mastered ↔ lvl ≥ 0.8 := by
  unfold specClassify
  split_ifs with h1 h2 <;> simp [*]

theorem specClassify_eq_struggling (lvl : ℚ) (tq : ℕ) :
    specClassify lvl tq = MasteryClass.struggling ↔ (lvl < 0.5 ∧ tq > 0) := by
  unfold specClassify
  split_ifs with h1 h2
  · constructor
    · intro hco
      simp at hco
    · rintro ⟨hl, -⟩
      exfalso
      rw [ge_iff_le] at h1
      linarith
  · simp [h2]
  · simp [h2]

/-- The spec's three classes partition any record collection. -/
theorem specClassify_partition (ms : List ConceptMastery) :
    ms.countP (fun cm =>
        specClassify cm.mastery_level cm.times_quizzed = MasteryClass.mastered) +
      ms.countP (fun cm =>
        specClassify cm.mastery_level cm.times_quizzed = MasteryClass.struggling) +
      ms.countP (fun cm =>
        specClassify cm.mastery_level cm.times_quizzed = MasteryClass.inProgress) =
      ms.length := by
  induction ms with
  | nil => rfl
  | cons cm tl ih =>
    simp only [List.countP_cons, List.length_cons]
    cases h : specClassify cm.mastery_level cm.times_quizzed <;> simp [h] <;> omega

/-- C3 (amended): the retention endpoint's counts coincide with the spec's
§4.1 threshold policy (`mastered ⟺ mastery_level ≥ 0.8`, `struggling ⟺
mastery_level < 0.5 ∧ times_quizzed > 0`, in-progress the rest) when
`total` is the number of aggregated records; the service's
`calculate_retention_rate`, however, classifies by the `is_understood` flag
and by `times_quizzed ≥ 3`, so the two implementations do not classify
identically (see the counterexample). -/
theorem C3_endpoint_matches_policy (ms : List ConceptMastery) :
    get_retention_stats ms ms.length = specPolicyCounts ms := by
  have hm : ms.countP (fun cm => decide (cm.mastery_level ≥ 0.8)) =
      ms.countP (fun cm =>
        specClassify cm.mastery_level cm.times_quizzed = MasteryClass.mastered) := by
    apply List.countP_congr
    intro cm _
    simp [specClassify_eq_mastered]
  have hs : ms.countP
      (fun cm => decide (cm.mastery_level < 0.5 ∧ cm.times_quizzed > 0)) =
      ms.countP (fun cm =>
        specClassify cm.mastery_level cm.times_quizzed = MasteryClass.struggling) := by
    apply List.countP_congr
    intro cm _
    simp [specClassify_eq_struggling]
  have hp := specClassify_partition ms
  simp only [get_retention_stats, specPolicyCounts, RetentionCounts.mk.injEq]
  refine ⟨hm, hs, ?_⟩
  rw [hm, hs]
  omega

/-- An understanding with high confidence after a single quiz — not yet
`is_understood` (that needs two quizzes). -/
def singleQuizUnderstanding : ConceptUnderstanding :=
  { user_id := "u", concept_id := "c", paper_id := "p", is_understood := false,
    confidence_level := 0.9, times_reviewed := 1, times_quizzed := 1,
    correct_answers := 1, last_reviewed := some 0, next_review := some 6,
    ease_factor := 2.6, interval_days := 6 }

/-- The `ConceptMastery` record with the same mastery/confidence value and
quiz count. -/
def singleQuizMastery : ConceptMastery :=
  { concept_id := "c", concept_name := "C", paper_id := "p",
    mastery_level := 0.9, times_reviewed := 1, times_quizzed := 1 }

/-- C3 counterexample: on matched records (same 0.9 confidence/mastery, one
quiz) the service counts 0 mastered while the endpoint counts 1, so the two
retention implementations do not classify identically. -/
theorem C3_counterexample :
    singleQuizMastery.mastery_level = singleQuizUnderstanding.confidence_level ∧
    singleQuizMastery.times_quizzed = singleQuizUnderstanding.times_quizzed ∧
    (calculate_retention_rate [singleQuizUnderstanding]).mastered = 0 ∧
    (get_retention_stats [singleQuizMastery] 1).mastered = 1 ∧
    calculate_retention_rate [singleQuizUnderstanding] ≠
      get_retention_stats [singleQuizMastery] 1 := by
  refine ⟨rfl, rfl, ?_, ?_, ?_⟩ <;>
    norm_num [calculate_retention_rate, get_retention_stats,
      singleQuizUnderstanding, singleQuizMastery, List.countP_cons,
      RetentionCounts.mk.injEq]

/-- `lookup` after one `addScore` step: the targeted key gains the score and
a count increment (starting from `([], 0)` when absent); other keys are
untouched. -/
theorem lookup_addScore (st : List (String × (List ℚ × ℕ))) (cid c : String) (s : ℚ) :
    (addScore st cid s).lookup c =
      if c = cid then
        some (((st.lookup cid).getD ([], 0)).1 ++ [s],
              ((st.lookup cid).getD ([], 0)).2 + 1)
      else st.lookup c := by
  induction st with
  | nil =>
    by_cases h : c = cid
    · subst h
      simp [addScore, List.lookup]
    · have hb : (c == cid) = false := beq_eq_false_iff_ne.mpr h
      simp [addScore, List.lookup, hb, h]
  | cons kv tl ih =>
    obtain ⟨k, ss, n⟩ := kv
    by_cases hk : k = cid
    · subst hk
      by_cases hc : c = k
      · subst hc
        simp [addScore, List.lookup]
      · have hb : (c == k) = false := beq_eq_false_iff_ne.mpr hc
        simp [addScore, List.lookup, hb, hc]
    · have hb2 : (cid == k) = false := beq_eq_false_iff_ne.mpr (fun hh => hk hh.symm)
      by_cases hc : c = k
      · subst hc
        have hcc : ¬ c = cid := hk
        have hbc : (c == cid) = false := beq_eq_false_iff_ne.mpr hcc
        simp [addScore, List.lookup, hk, hcc, hb2]
      · have hb : (c == k) = false := beq_eq_false_iff_ne.mpr hc
        simp [addScore, List.lookup, hk, hb, hb2, ih]

/-- `lookup` after folding a whole item list through `addScore`. -/
theorem lookup_foldl_addScore (ps : List (String × ℚ))
    (st : List (String × (List ℚ × ℕ))) (c : String) :
    (ps.foldl (fun st p => addScore st p.1 p.2) st).lookup c =
      if obsPairs ps c = [] then st.lookup c
      else some (((st.lookup c).getD ([], 0)).1 ++ obsPairs ps c,
                 ((st.lookup c).getD ([], 0)).2 + (obsPairs ps c).length) := by
  induction ps generalizing st with
  | nil => simp [obsPairs]
  | cons p ps ih =>
    rw [List.foldl_cons, ih, lookup_addScore]
    by_cases hp : p.1 = c
    · have hc : c = p.1 := hp.symm
      have hobs : obsPairs (p :: ps) c = p.2 :: obsPairs ps c := by
        simp [obsPairs, hp]
      rw [hobs, if_pos hc, hp]
      by_cases hrest : obsPairs ps c = []
      · simp [hrest]
      · rw [if_neg hrest, if_neg (by simp : ¬ (p.2 :: obsPairs ps c = ([] : List ℚ)))]
        simp only [Option.getD_some, Option.some.injEq, Prod.mk.injEq, List.length_cons]
        constructor
        · rw [List.append_assoc]
          rfl
        · omega
    · have hc : ¬ c = p.1 := fun hh => hp hh.symm
      have hobs : obsPairs (p :: ps) c = obsPairs ps c := by
        simp [obsPairs, hp]
      rw [hobs, if_neg hc]

/-- The nested fold of `buildConceptStats` equals a single fold over the
flattened item list. -/
theorem buildConceptStats_eq_flat (quiz_results : List QuizResult) :
    buildConceptStats quiz_results =
      ((quiz_results.map (fun qr => qr.concept_scores)).flatten).foldl
        (fun st p => addScore st p.1 p.2) [] := by
  unfold buildConceptStats
  generalize ([] : List (String × (List ℚ × ℕ))) = st
  induction quiz_results generalizing st with
  | nil => rfl
  | cons qr qrs ih => simp [List.foldl_append, ih]

/-- The `concept_stats` entry for a concept is exactly its observation list
with its length as the count (`none` when it was never observed). -/
theorem lookup_buildConceptStats (quiz_results : List QuizResult) (c : String) :
    (buildConceptStats quiz_results).lookup c =
      if observations quiz_results c = [] then none
      else some (observations quiz_results c, (observations quiz_results c).length) := by
  rw [buildConceptStats_eq_flat, lookup_foldl_addScore]
  simp [observations, List.lookup]

/-- The concept-mastery list `_update_progress` stores: one record per graph
concept, in graph order, carrying the mean and count of that concept's
observations. -/
theorem update_progress_concepts_mastery (p : UserProgress) (paper_id : String)
    (quiz_results : List QuizResult) (graph : List Concept) :
    (update_progress p paper_id quiz_results (some graph)).concepts_mastery =
      graph.map (fun c =>
        { concept_id := c.id, concept_name := c.name, paper_id := paper_id,
          mastery_level := scoresMean (observations quiz_results c.id),
          times_reviewed := (observations quiz_results c.id).length,
          times_quizzed := (observations quiz_results c.id).length }) := by
  cases hqr : quiz_results.isEmpty
  · simp only [update_progress, hqr, Bool.false_eq_true, if_false,
      apply_ite UserProgress.concepts_mastery, ite_self]
    apply List.map_congr_left
    intro c _
    rw [lookup_buildConceptStats]
    by_cases hobs : observations quiz_results c.id = []
    · simp [hobs, scoresMean]
    · simp [hobs, scoresMean]
  · have hql : quiz_results = [] := List.isEmpty_iff.mp hqr
    subst hql
    simp only [update_progress, List.isEmpty_nil, if_true]
    apply List.map_congr_left
    intro c _
    simp [observations, obsPairs, scoresMean]

/-- C4: mastery aggregation emits exactly one `ConceptMastery` record per
concept in the graph, in graph order: a concept with ≥ 1 observation in the
histories' `concept_scores` gets the arithmetic mean of those observations
as `mastery_level` and their count as `times_quizzed`; a concept with no
observation still appears, with mastery 0.0 and count 0 (`scoresMean [] =
0`); `times_reviewed` always equals `times_quizzed`; and score entries whose
concept id is not in the graph contribute no output record. Holds for empty
histories as well. -/
theorem C4_mastery_aggregation (p : UserProgress) (paper_id : String)
    (quiz_results : List QuizResult) (graph : List Concept) :
    (update_progress p paper_id quiz_results (some graph)).concepts_mastery =
      graph.map (fun c =>
        { concept_id := c.id, concept_name := c.name, paper_id := paper_id,
          mastery_level := scoresMean (observations quiz_results c.id),
          times_reviewed := (observations quiz_results c.id).length,
          times_quizzed := (observations quiz_results c.id).length }) :=
  update_progress_concepts_mastery p paper_id quiz_results graph

/-- With a nonempty history and a nonempty graph, `_update_progress` stores
`int(avg_mastery * 100)` over the freshly built mastery list. -/
theorem update_progress_completion (p : UserProgress) (paper_id : String)
    (quiz_results : List QuizResult) (graph : List Concept)
    (hqe : quiz_results.isEmpty = false) (hge : graph.isEmpty = false) :
    (update_progress p paper_id quiz_results (some graph)).completion_percentage =
      pythonInt (masteryMean
        ((update_progress p paper_id quiz_results (some graph)).concepts_mastery)
        * 100) := by
  cases graph with
  | nil => simp at hge
  | cons c cs =>
    simp [update_progress, hqe]

/-- With a nonempty history and an empty graph, `_update_progress` leaves the
completion percentage untouched (the mastery list is empty). -/
theorem update_progress_completion_empty (p : UserProgress) (paper_id : String)
    (quiz_results : List QuizResult) (hqe : quiz_results.isEmpty = false) :
    (update_progress p paper_id quiz_results (some [])).completion_percentage =
      p.completion_percentage := by
  simp [update_progress, hqe]

theorem observations_nonneg (quiz_results : List QuizResult) (cid : String)
    (hnn : ∀ qr ∈ quiz_results, ∀ pr ∈ qr.concept_scores, 0 ≤ pr.2) :
    ∀ x ∈ observations quiz_results cid, 0 ≤ x := by
  intro x hx
  simp only [observations, obsPairs, List.mem_map] at hx
  obtain ⟨pr, hpr, hx2⟩ := hx
  rw [List.mem_filter] at hpr
  obtain ⟨hmem, -⟩ := hpr
  rw [List.mem_flatten] at hmem
  obtain ⟨l, hl, hpl⟩ := hmem
  rw [List.mem_map] at hl
  obtain ⟨qr, hqr, rfl⟩ := hl
  subst hx2
  exact hnn qr hqr pr hpl

theorem scoresMean_nonneg (l : List ℚ) (h : ∀ x ∈ l, 0 ≤ x) : 0 ≤ scoresMean l := by
  unfold scoresMean
  exact div_nonneg (List.sum_nonneg h) (Nat.cast_nonneg _)

theorem masteryMean_nonneg (ms : List ConceptMastery)
    (h : ∀ cm ∈ ms, 0 ≤ cm.mastery_level) : 0 ≤ masteryMean ms := by
  unfold masteryMean
  refine div_nonneg (List.sum_nonneg ?_) (Nat.cast_nonneg _)
  intro x hx
  obtain ⟨cm, hcm, rfl⟩ := List.mem_map.mp hx
  exact h cm hcm

/-- C7 (amended): with a nonempty quiz history and nonnegative scores, the
stored completion percentage over a nonempty concept graph is
`int(mean(mastery_level) * 100)` — Python `int()` truncation, which equals
`floor` on this nonnegative mean, not round-to-nearest; with an empty graph
(no concept records) the completion percentage is left at its prior value
(0 for a fresh `UserProgress`). -/
theorem C7_completion_truncation (p : UserProgress) (paper_id : String)
    (quiz_results : List QuizResult) (graph : List Concept)
    (hne : quiz_results ≠ [])
    (hnn : ∀ qr ∈ quiz_results, ∀ pr ∈ qr.concept_scores, 0 ≤ pr.2) :
    (graph ≠ [] →
      (update_progress p paper_id quiz_results (some graph)).completion_percentage =
        ⌊masteryMean
          ((update_progress p paper_id quiz_results (some graph)).concepts_mastery)
          * 100⌋) ∧
    (graph = [] →
      (update_progress p paper_id quiz_results (some graph)).completion_percentage =
        p.completion_percentage) := by
  have hqe : quiz_results.isEmpty = false := by
    cases quiz_results with
    | nil => exact absurd rfl hne
    | cons a l => rfl
  constructor
  · intro hg
    have hge : graph.isEmpty = false := by
      cases graph with
      | nil => exact absurd rfl hg
      | cons a l => rfl
    rw [update_progress_completion p paper_id quiz_results graph hqe hge]
    apply pythonInt_eq_floor
    apply mul_nonneg _ (by norm_num)
    apply masteryMean_nonneg
    intro cm hcm
    rw [update_progress_concepts_mastery] at hcm
    obtain ⟨c, -, rfl⟩ := List.mem_map.mp hcm
    exact scoresMean_nonneg _ (observations_nonneg quiz_results c.id hnn)
  · intro hg
    subst hg
    exact update_progress_completion_empty p paper_id quiz_results hqe

/-- Witness for C7 on a one-quiz, one-concept input. -/
def sampleConcept : Concept := { id := "c1", name := "C1" }

/-- A graded quiz scoring concept `"c1"` at 0.996. -/
def nearPerfectQuiz : QuizResult :=
  { concept_scores := [(("c1" : String), (0.996 : ℚ))], score_percentage := 99.6 }

/-- A fresh `UserProgress` with the model defaults. -/
def freshProgress : UserProgress :=
  { user_id := "u", paper_id := "p", completion_percentage := 0,
    concepts_mastery := [], quiz_attempts := 0, average_quiz_score := 0 }

/-- C7 counterexample: with one concept at mastery 0.996 the code stores
`int(99.6) = 99`, while `round(mean*100)` would be 100 — the completion
percentage is truncated, not rounded to nearest. -/
theorem C7_counterexample :
    (update_progress freshProgress ("p") [nearPerfectQuiz]
        (some [sampleConcept])).completion_percentage = 99 ∧
    specRound (masteryMean
        ((update_progress freshProgress ("p") [nearPerfectQuiz]
          (some [sampleConcept])).concepts_mastery) * 100) = 100 := by
  norm_num [update_progress, freshProgress, nearPerfectQuiz, sampleConcept,
    buildConceptStats, addScore, masteryMean, specRound, pythonInt,
    List.lookup]

/-- Witness for C7 on the same concrete input. -/
theorem C7_witness :
    ([nearPerfectQuiz] ≠ ([] : List QuizResult)) ∧
    (([sampleConcept] : List Concept) ≠ [] →
      (update_progress freshProgress ("p") [nearPerfectQuiz]
          (some [sampleConcept])).completion_percentage =
        ⌊masteryMean
          ((update_progress freshProgress ("p") [nearPerfectQuiz]
            (some [sampleConcept])).concepts_mastery) * 100⌋) :=
  ⟨by simp,
   (C7_completion_truncation freshProgress ("p") [nearPerfectQuiz] [sampleConcept]
     (by simp)
     (by
       intro qr hqr pr hpr
       simp only [List.mem_singleton] at hqr
       subst hqr
       simp only [nearPerfectQuiz, List.mem_singleton] at hpr
       subst hpr
       norm_num)).1⟩

end PaperMentor
